import Mathlib

/-! Verification of the action-dispatch and command-execution subsystem of
swayimg (src/mode.c): the dispatcher mode_handle, the path collector
collect_paths and the command runner execute_cmd, together with the status
truncation applied before publication.

External collaborators (shellcmd_expr, shellcmd_exec, strerror, info_update,
app_redraw, ui/help primitives) are modelled as an environment record and an
effects record: one dispatch call is a pure function from the environment and
the ambient state to the observable side effects it produces. -/

/-- An entry of the externally-owned image list: the source path string and
the user-controlled marked flag (struct image fields read by mode.c). -/
structure Image where
  source : String
  marked : Bool
deriving DecidableEq

/-- Modelled from the spec: classification of one shellcmd_exec run (the
process-execution primitive lives in shellcmd.c, outside the fragment).
The spec classifies the result as success (exit code 0), failure with a
nonzero code, or the distinguished timeout pseudo-status SHELLCMD_TIMEOUT,
which is not a numeric exit code. -/
inductive CmdResult where
  | code (rc : Int)
  | timeout
deriving DecidableEq

/-- Modelled from the spec: the external collaborators consumed by one
dispatch call. expand is shellcmd_expr (templating: command string or
absent); result, out and err are the classification and the captured
standard-output/standard-error texts of shellcmd_exec, each stream absent
when it produced no bytes; strerror is the libc textual description of a
numeric code. -/
structure Env where
  expand : String → List String → Option String
  result : CmdResult
  out : Option String
  err : Option String
  strerror : Int → String

/-- Observable side effects of one dispatch call: the status line published
via info_update (none = left unchanged), the number of app_redraw requests,
the commands handed to shellcmd_exec, the bytes mirrored to the process's
own stdout/stderr, and the remaining UI effects of mode_handle. -/
structure Effects where
  status : Option String := none
  redraws : Nat := 0
  spawned : List String := []
  outMirror : Option String := none
  errMirror : Option String := none
  infoSwitched : Option String := none
  fullscreenToggled : Bool := false
  modeSwitched : Option String := none
  markToggled : Bool := false
  helpShown : Bool := false
  helpHidden : Bool := false
  exited : Option Int := none
deriving DecidableEq

/-- The local constant max_status = 60 of execute_cmd. -/
def max_status : Nat := 60

/-- The trimming step at the end of execute_cmd: when strlen(msg) exceeds
max_status, the code memcpys sizeof("...") = 4 bytes (three dots and the
terminating NUL) to offset max_status - 4 = 56, so the resulting C string
is the first 56 characters of msg followed by three dots. -/
def truncStatus (msg : String) : String :=
  if msg.length > max_status then
    String.mk (msg.data.take (max_status - 4)) ++ "..."
  else msg

/-- The status-message construction of execute_cmd (mode.c lines 48-68):
exit code 0 takes the captured stdout if present, else a synthesized
success line; SHELLCMD_TIMEOUT takes the timeout line; any other code takes
an Error line with the code rendered by snprintf %d, followed by stderr,
else stdout, else strerror of the code. -/
def build_msg (env : Env) (cmd : String) : String :=
  match env.result with
  | CmdResult.code rc =>
    if rc = 0 then
      match env.out with
      | some o => o
      | none => "Success: " ++ cmd
    else
      "Error " ++ toString rc ++ ": " ++
        (match env.err with
         | some e => e
         | none =>
           match env.out with
           | some o => o
           | none => env.strerror rc)
  | CmdResult.timeout => "Child process timed out: " ++ cmd

/-- execute_cmd (mode.c lines 21-84): expand the expression over the paths;
if no command results, publish the fixed error status and redraw without
spawning anything; otherwise run the command, mirror its captured streams
to the process's own stdout/stderr, publish the (possibly trimmed) status
message and redraw. -/
def execute_cmd (env : Env) (expr : String) (paths : List String) : Effects :=
  match env.expand expr paths with
  | none =>
    { status := some "Error: no command to execute", redraws := 1 }
  | some cmd =>
    { status := some (truncStatus (build_msg env cmd))
      redraws := 1
      spawned := [cmd]
      outMirror := env.out
      errMirror := env.err }

/-- First pass of collect_paths: count the marked images. -/
def count_marked : List Image → Nat
  | [] => 0
  | img :: rest => (if img.marked then 1 else 0) + count_marked rest

/-- Second pass of collect_paths: write the source of each marked image,
in list order. -/
def fill_paths : List Image → List String
  | [] => []
  | img :: rest =>
    if img.marked then img.source :: fill_paths rest else fill_paths rest

/-- collect_paths (mode.c lines 86-112): count the marked images; return
NULL when none are marked; return NULL when the malloc of the path array
fails (allocOk models the success of that malloc); otherwise return the
sources of the marked images in forward iteration order. -/
def collect_paths (allocOk : Bool) (imgs : List Image) : Option (List String) :=
  if count_marked imgs = 0 then none
  else if allocOk then some (fill_paths imgs) else none

/-- The closed action vocabulary of mode_handle; other covers every
mode-specific or unrecognized type, carrying its type name. -/
inductive action where
  | info (params : String)
  | status (params : String)
  | fullscreen
  | mode (params : String)
  | exec (params : String)
  | mark
  | exec_marked (params : String)
  | help
  | exit
  | other (typename : String)
deriving DecidableEq

/-- action_typename of the default branch (defined in action.c, outside the
fragment; the spec calls it the type-name of the action). -/
def action_typename : action → String
  | action.info _ => "info"
  | action.status _ => "status"
  | action.fullscreen => "fullscreen"
  | action.mode _ => "mode"
  | action.exec _ => "exec"
  | action.mark => "mark"
  | action.exec_marked _ => "exec_marked"
  | action.help => "help"
  | action.exit => "exit"
  | action.other n => n

/-- The polymorphic mode capability set used by mode_handle: the current
image, the keybinding data for the help overlay, and the mode-specific
action handler. -/
structure Mode where
  current : Image
  keybinds : List String
  handle_action : action → Bool

/-- mode_handle (mode.c lines 114-177): route one action. imgs is the
externally-owned image list, allocOk the success of the path-array malloc,
helpVisible the help-overlay visibility at entry. -/
def mode_handle (env : Env) (m : Mode) (imgs : List Image) (allocOk : Bool)
    (helpVisible : Bool) (a : action) : Effects :=
  match a with
  | action.info p => { infoSwitched := some p, redraws := 1 }
  | action.status p => { status := some p, redraws := 1 }
  | action.fullscreen => { fullscreenToggled := true }
  | action.mode p => { modeSwitched := some p }
  | action.exec p => execute_cmd env p [m.current.source]
  | action.mark => { markToggled := true, redraws := 1 }
  | action.exec_marked p =>
    match collect_paths allocOk imgs with
    | some paths => execute_cmd env p paths
    | none => {}
  | action.help =>
    if helpVisible then { helpHidden := true, redraws := 1 }
    else { helpShown := true, redraws := 1 }
  | action.exit =>
    if helpVisible then { helpHidden := true, redraws := 1 }
    else { exited := some 0 }
  | action.other n =>
    if m.handle_action (action.other n) then {}
    else { status := some ("Unhandled action: " ++ n), redraws := 1 }

/-! Helper lemmas relating the two passes of collect_paths to the list
combinators used in the statements, and the redraw count of execute_cmd. -/

theorem count_marked_eq_zero (imgs : List Image) :
    count_marked imgs = 0 ↔ ∀ img ∈ imgs, img.marked = false := by
  induction imgs with
  | nil => simp [count_marked]
  | cons img rest ih =>
    cases h : img.marked <;> simp [count_marked, h, ih]

theorem fill_paths_eq (imgs : List Image) :
    fill_paths imgs =
      (imgs.filter fun img => img.marked).map fun img => img.source := by
  induction imgs with
  | nil => rfl
  | cons img rest ih =>
    cases h : img.marked <;> simp [fill_paths, h, ih, List.filter_cons]

theorem execute_cmd_redraws (env : Env) (expr : String) (paths : List String) :
    (execute_cmd env expr paths).redraws = 1 := by
  cases h : env.expand expr paths <;> simp [execute_cmd, h]

/-! Concrete fixtures used by witnesses and counterexamples. -/

/-- A status text of 61 characters, one more than max_status. -/
def longText : String := String.mk (List.replicate 61 'a')

/-- Run that expands to the expression itself, exits 0 and captured
longText on stdout. -/
def envLongOut : Env :=
  { expand := fun e _ => some e
    result := CmdResult.code 0
    out := some longText
    err := none
    strerror := fun _ => "unknown error" }

/-- Run that expands to the expression itself, exits 0 with no captured
output. -/
def envNoOut : Env :=
  { expand := fun e _ => some e
    result := CmdResult.code 0
    out := none
    err := none
    strerror := fun _ => "unknown error" }

/-- Templating yields no command. -/
def envNone : Env :=
  { expand := fun _ _ => none
    result := CmdResult.code 0
    out := none
    err := none
    strerror := fun _ => "unknown error" }

/-- Run that exits with code 1, both streams silent. -/
def envErr1 : Env :=
  { expand := fun e _ => some e
    result := CmdResult.code 1
    out := none
    err := none
    strerror := fun _ => "operation not permitted" }

/-- A mode whose handler claims no action. -/
def mDefault : Mode :=
  { current := { source := "/img/a.png", marked := false }
    keybinds := []
    handle_action := fun _ => false }

/-- C1: the claim predicts that a status message longer than 60 characters
is published as exactly 60 characters, the first 57 followed by three dots.
On a 61-character stdout text of a successful run, the code publishes 59
characters: the first 56 followed by three dots, because the memcpy places
the 4-byte literal (dots plus NUL) at offset 56. -/
theorem C1_counterexample :
    (execute_cmd envLongOut "c" []).status =
      some (String.mk (List.replicate 56 'a') ++ "...") ∧
    ((execute_cmd envLongOut "c" []).status.getD "").length = 59 ∧
    (execute_cmd envLongOut "c" []).status ≠
      some (String.mk (List.replicate 57 'a') ++ "...") := by decide

/-- C1 (amended): for every status message routed through the publication
step of execute_cmd, a message longer than 60 characters is published as
exactly 59 characters, its first 56 characters followed by three dots;
a message of 60 characters or fewer is published unchanged. -/
theorem C1_truncation (env : Env) (expr : String) (ps : List String)
    (cmd msg : String) (hc : env.expand expr ps = some cmd)
    (hm : build_msg env cmd = msg) :
    (msg.length > 60 →
      (execute_cmd env expr ps).status =
        some (String.mk (msg.data.take 56) ++ "...") ∧
      ((execute_cmd env expr ps).status.getD "").length = 59) ∧
    (msg.length ≤ 60 → (execute_cmd env expr ps).status = some msg) := by
  have hs : (execute_cmd env expr ps).status = some (truncStatus msg) := by
    simp [execute_cmd, hc, hm]
  constructor
  · intro h
    have ht : truncStatus msg = String.mk (msg.data.take 56) ++ "..." := by
      simp [truncStatus, max_status, h]
    refine ⟨by rw [hs, ht], ?_⟩
    rw [hs, ht]
    have hlen : msg.data.length = msg.length := rfl
    have h2 : (msg.data.take 56).length = 56 := by
      rw [List.length_take]
      omega
    simp only [Option.getD_some, String.length_append]
    show (msg.data.take 56).length + "...".length = 59
    rw [h2]
    rfl
  · intro h
    have hn : ¬ msg.length > max_status := by
      simp only [max_status]
      omega
    have ht : truncStatus msg = msg := by
      simp [truncStatus, hn]
    rw [hs, ht]

/-- C1 witness: the amended truncation evaluated on the 61-character text. -/
theorem C1_truncation_witness :
    (execute_cmd envLongOut "c" []).status =
      some (String.mk (longText.data.take 56) ++ "...") ∧
    ((execute_cmd envLongOut "c" []).status.getD "").length = 59 :=
  (C1_truncation envLongOut "c" [] "c" longText rfl rfl).1 (by decide)

/-- C2: with the path-array allocation succeeding, collect_paths returns
the absent result exactly when no image is marked, and otherwise the source
paths of exactly the marked images in the collection's forward iteration
order. -/
theorem C2_collect_marked_paths (imgs : List Image) :
    (collect_paths true imgs = none ↔ ∀ img ∈ imgs, img.marked = false) ∧
    (∀ ps, collect_paths true imgs = some ps →
      ps = (imgs.filter fun img => img.marked).map fun img => img.source) := by
  by_cases h0 : count_marked imgs = 0
  · have hc : collect_paths true imgs = none := by
      simp [collect_paths, h0]
    refine ⟨by rw [hc]; simpa using (count_marked_eq_zero imgs).mp h0, ?_⟩
    intro ps hps
    rw [hc] at hps
    exact absurd hps (by simp)
  · have hc : collect_paths true imgs = some (fill_paths imgs) := by
      simp [collect_paths, h0]
    constructor
    · rw [hc]
      simp only [reduceCtorEq, false_iff]
      intro hall
      exact h0 ((count_marked_eq_zero imgs).mpr hall)
    · intro ps hps
      rw [hc] at hps
      cases hps
      exact fill_paths_eq imgs

/-- C2 witness: a two-image list with one marked image. -/
theorem C2_collect_marked_paths_witness :
    ["/a.png"] =
      (([Image.mk "/a.png" true, Image.mk "/b.png" false].filter
        fun img => img.marked).map fun img => img.source) :=
  (C2_collect_marked_paths
    [Image.mk "/a.png" true, Image.mk "/b.png" false]).2 ["/a.png"] (by decide)

/-- C3: dispatching execute-on-marked while no image is marked produces no
effect at all: no command is built or spawned, the status line is left
unchanged, and no redraw is requested. -/
theorem C3_exec_marked_noop (env : Env) (m : Mode) (imgs : List Image)
    (allocOk helpVisible : Bool) (p : String)
    (h : ∀ img ∈ imgs, img.marked = false) :
    mode_handle env m imgs allocOk helpVisible (action.exec_marked p) =
      ({} : Effects) := by
  have h0 : count_marked imgs = 0 := (count_marked_eq_zero imgs).mpr h
  simp [mode_handle, collect_paths, h0]

/-- C3 witness: a singleton unmarked list. -/
theorem C3_exec_marked_noop_witness :
    mode_handle envLongOut mDefault [Image.mk "/b.png" false] true false
      (action.exec_marked "rm") = ({} : Effects) :=
  C3_exec_marked_noop envLongOut mDefault [Image.mk "/b.png" false] true false
    "rm" (by decide)

/-- C4: a run that exits 0 publishes the captured stdout text when a
non-empty capture is present, else the synthesized Success line naming the
built command; either message then passes the truncation step. The capture
is absent exactly when the stream produced no bytes, so a present capture
is non-empty. -/
theorem C4_success_status (env : Env) (expr : String) (ps : List String)
    (cmd : String) (hc : env.expand expr ps = some cmd)
    (h0 : env.result = CmdResult.code 0) (hwf : env.out ≠ some "") :
    (∀ t, env.out = some t →
      t ≠ "" ∧ (execute_cmd env expr ps).status = some (truncStatus t)) ∧
    (env.out = none →
      (execute_cmd env expr ps).status =
        some (truncStatus ("Success: " ++ cmd))) := by
  constructor
  · intro t ht
    refine ⟨fun he => hwf (he ▸ ht), ?_⟩
    simp [execute_cmd, hc, build_msg, h0, ht]
  · intro ht
    simp [execute_cmd, hc, build_msg, h0, ht]

/-- C4 witness: a silent successful run yields the Success line. -/
theorem C4_success_status_witness :
    (execute_cmd envNoOut "date" []).status =
      some (truncStatus ("Success: " ++ "date")) :=
  (C4_success_status envNoOut "date" [] "date" rfl rfl (by decide)).2 rfl

/-- C5: an unsuccessful run builds its status message by classification:
timeout yields the timed-out line naming the command; a nonzero exit code
rc yields an Error line with rc rendered in decimal (snprintf %d, modelled
by toString on Int), followed by the captured stderr, else the captured
stdout, else strerror of rc. The message then passes the truncation step. -/
theorem C5_failure_status (env : Env) (expr : String) (ps : List String)
    (cmd : String) (hc : env.expand expr ps = some cmd) :
    (env.result = CmdResult.timeout →
      (execute_cmd env expr ps).status =
        some (truncStatus ("Child process timed out: " ++ cmd))) ∧
    (∀ rc : Int, rc ≠ 0 → env.result = CmdResult.code rc →
      (∀ e, env.err = some e →
        (execute_cmd env expr ps).status =
          some (truncStatus ("Error " ++ toString rc ++ ": " ++ e))) ∧
      (env.err = none → ∀ o, env.out = some o →
        (execute_cmd env expr ps).status =
          some (truncStatus ("Error " ++ toString rc ++ ": " ++ o))) ∧
      (env.err = none → env.out = none →
        (execute_cmd env expr ps).status =
          some (truncStatus ("Error " ++ toString rc ++ ": " ++
            env.strerror rc)))) := by
  constructor
  · intro ht
    simp [execute_cmd, hc, build_msg, ht]
  · intro rc hrc hres
    refine ⟨?_, ?_, ?_⟩
    · intro e he
      simp [execute_cmd, hc, build_msg, hres, hrc, he]
    · intro he o ho
      simp [execute_cmd, hc, build_msg, hres, hrc, he, ho]
    · intro he ho
      simp [execute_cmd, hc, build_msg, hres, hrc, he, ho]

/-- C5 witness: exit code 1 with both streams silent yields the Error line
followed by the strerror text. -/
theorem C5_failure_status_witness :
    (execute_cmd envErr1 "false" []).status =
      some (truncStatus ("Error " ++ toString (1 : Int) ++ ": " ++
        envErr1.strerror 1)) :=
  (((C5_failure_status envErr1 "false" [] "false" rfl).2 1
    (by decide) rfl).2.2) rfl rfl

/-- C6: when templating yields no command, execute_cmd spawns nothing,
publishes the fixed no-command error as a status message, requests one
redraw and returns without terminating the application. -/
theorem C6_no_command (env : Env) (expr : String) (ps : List String)
    (h : env.expand expr ps = none) :
    (execute_cmd env expr ps).spawned = [] ∧
    (execute_cmd env expr ps).status = some "Error: no command to execute" ∧
    (execute_cmd env expr ps).redraws = 1 ∧
    (execute_cmd env expr ps).exited = none := by
  simp [execute_cmd, h]

/-- C6 witness: the empty-templating environment. -/
theorem C6_no_command_witness :
    (execute_cmd envNone "" []).spawned = [] ∧
    (execute_cmd envNone "" []).status = some "Error: no command to execute" ∧
    (execute_cmd envNone "" []).redraws = 1 ∧
    (execute_cmd envNone "" []).exited = none :=
  C6_no_command envNone "" [] rfl

/-- C7: the claim predicts that the 60-character truncation also applies to
the set-status message. A set-status action whose params is the
61-character text is published unchanged, with 61 characters, differing
from its truncation. -/
theorem C7_counterexample :
    (mode_handle envLongOut mDefault [] true false
      (action.status longText)).status = some longText ∧
    longText.length > 60 ∧
    longText ≠ truncStatus longText := by decide

/-- C7 (amended): the truncation step is applied only to the status
messages composed inside execute_cmd (the Success, Timeout and Error
lines); the set-status action publishes its params verbatim and the
unhandled-action branch publishes its message verbatim, both with no
truncation regardless of length. -/
theorem C7_truncation_scope (env : Env) (m : Mode) (imgs : List Image)
    (allocOk helpVisible : Bool) (p n cmd : String) :
    (mode_handle env m imgs allocOk helpVisible (action.status p)).status =
      some p ∧
    (m.handle_action (action.other n) = false →
      (mode_handle env m imgs allocOk helpVisible (action.other n)).status =
        some ("Unhandled action: " ++ n)) ∧
    (env.expand p [m.current.source] = some cmd →
      (mode_handle env m imgs allocOk helpVisible (action.exec p)).status =
        some (truncStatus (build_msg env cmd))) := by
  refine ⟨by simp [mode_handle], ?_, ?_⟩
  · intro hn
    simp [mode_handle, hn]
  · intro hcmd
    simp [mode_handle, execute_cmd, hcmd]

/-- C7 witness: the three publication shapes at concrete inputs. -/
theorem C7_truncation_scope_witness :
    (mode_handle envLongOut mDefault [] true false
      (action.status "p")).status = some "p" ∧
    (mode_handle envLongOut mDefault [] true false
      (action.other "xyz")).status = some ("Unhandled action: " ++ "xyz") ∧
    (mode_handle envLongOut mDefault [] true false
      (action.exec "p")).status = some (truncStatus (build_msg envLongOut "p")) :=
  ⟨(C7_truncation_scope envLongOut mDefault [] true false "p" "xyz" "p").1,
   (C7_truncation_scope envLongOut mDefault [] true false "p" "xyz" "p").2.1 rfl,
   (C7_truncation_scope envLongOut mDefault [] true false "p" "xyz" "p").2.2 rfl⟩

/-- C8: whenever a command is actually executed, the captured stdout text
is mirrored verbatim to the invoking process's own standard output and the
captured stderr text to its standard error, independently of the status
message built from the same bytes. -/
theorem C8_mirrors (env : Env) (expr : String) (ps : List String)
    (cmd : String) (hc : env.expand expr ps = some cmd) :
    (execute_cmd env expr ps).spawned = [cmd] ∧
    (execute_cmd env expr ps).outMirror = env.out ∧
    (execute_cmd env expr ps).errMirror = env.err := by
  simp [execute_cmd, hc]

/-- C8 witness: the long-stdout run mirrors its capture. -/
theorem C8_mirrors_witness :
    (execute_cmd envLongOut "ls" []).spawned = ["ls"] ∧
    (execute_cmd envLongOut "ls" []).outMirror = some longText ∧
    (execute_cmd envLongOut "ls" []).errMirror = none :=
  C8_mirrors envLongOut "ls" [] "ls" rfl

/-- C9: no routing branch of mode_handle requests more than one redraw:
every dispatch issues zero or exactly one app_redraw, including both
branches of execute_cmd, the help toggle, the exit-dismisses-help branch
and the unhandled-action branch. -/
theorem C9_single_redraw (env : Env) (m : Mode) (imgs : List Image)
    (allocOk helpVisible : Bool) (a : action) :
    (mode_handle env m imgs allocOk helpVisible a).redraws ≤ 1 := by
  cases a with
  | info p => simp [mode_handle]
  | status p => simp [mode_handle]
  | fullscreen => simp [mode_handle]
  | mode p => simp [mode_handle]
  | exec p => simp [mode_handle, execute_cmd_redraws]
  | mark => simp [mode_handle]
  | exec_marked p =>
    cases h : collect_paths allocOk imgs <;>
      simp [mode_handle, h, execute_cmd_redraws]
  | help => cases helpVisible <;> simp [mode_handle]
  | exit => cases helpVisible <;> simp [mode_handle]
  | other n =>
    cases h : m.handle_action (action.other n) <;> simp [mode_handle, h]

/-- C10: when the path-array allocation fails while at least one image is
marked, collect_paths returns the same absent result as the zero-marked
case, and the execute-on-marked dispatch silently does nothing: no command
is run, no status is published, no redraw is requested. -/
theorem C10_alloc_failure (env : Env) (m : Mode) (imgs : List Image)
    (helpVisible : Bool) (p : String)
    (h : ∃ img ∈ imgs, img.marked = true) :
    count_marked imgs ≠ 0 ∧
    collect_paths false imgs = none ∧
    mode_handle env m imgs false helpVisible (action.exec_marked p) =
      ({} : Effects) := by
  have hne : count_marked imgs ≠ 0 := by
    intro h0
    obtain ⟨img, hmem, hmk⟩ := h
    have := (count_marked_eq_zero imgs).mp h0 img hmem
    rw [hmk] at this
    exact Bool.noConfusion this
  have hc : collect_paths false imgs = none := by
    simp [collect_paths, hne]
  exact ⟨hne, hc, by simp [mode_handle, hc]⟩

/-- C10 witness: one marked image with a failing allocation. -/
theorem C10_alloc_failure_witness :
    count_marked [Image.mk "/a.png" true] ≠ 0 ∧
    collect_paths false [Image.mk "/a.png" true] = none ∧
    mode_handle envLongOut mDefault [Image.mk "/a.png" true] false false
      (action.exec_marked "rm") = ({} : Effects) :=
  C10_alloc_failure envLongOut mDefault [Image.mk "/a.png" true] false "rm"
    ⟨Image.mk "/a.png" true, by simp, rfl⟩
